import Mathlib

/-
Verification of the line-delimited JSON request/response server
(`server.py`): protocol codec outcomes, request validation, dispatch,
response construction and the session loop are embedded shallowly below,
and the stated properties of the spec are settled against them.
-/

set_option maxHeartbeats 1000000

namespace NetServer

/-- A JSON value, as produced by decoding one line of the wire protocol.
Numbers are modelled as integers; no claim depends on numeric semantics. -/
inductive Json where
  | null : Json
  | bool : Bool → Json
  | num : Int → Json
  | str : String → Json
  | arr : List Json → Json
  | obj : List (String × Json) → Json

/-- The field list of a JSON object (a Python dict in the source). -/
abbrev JsonObj := List (String × Json)

/-- Field lookup in a JSON object, modelling Python dict indexing / `in`. -/
def lookupKey : JsonObj → String → Option Json
  | [], _ => none
  | (k, v) :: rest, key => if k = key then some v else lookupKey rest key

/-- Whether the value is a JSON object, modelling `isinstance(x, dict)`. -/
def Json.isObj : Json → Bool
  | Json.obj _ => true
  | _ => false

/-- The field list of a JSON value when it is an object, else empty. -/
def Json.fields : Json → JsonObj
  | Json.obj kvs => kvs
  | _ => []

/-- Characters removed by Python `str.strip()` at either end. -/
def pyStripChars (cs : List Char) : List Char :=
  ((cs.dropWhile Char.isWhitespace).reverse.dropWhile Char.isWhitespace).reverse

/-- Python `str.strip()`: the string with surrounding whitespace removed. -/
def pyStrip (s : String) : String :=
  String.mk (pyStripChars s.data)

/-- Python `str.upper()` on the character ranges the protocol uses. -/
def pyUpper (s : String) : String :=
  String.mk (s.data.map Char.toUpper)

/-- `SERVER_NAME` constant of `server.py`. -/
def SERVER_NAME : String := "Tinashe-NetServer"

/-- A protocol response record, as built by `make_response`: `data` is always
an object and `error` is either absent (JSON null) or an object. -/
structure Response where
  request_id : String
  status : String
  data : JsonObj
  error : Option JsonObj

/-- `make_response` of `server.py`: `data or {}` defaults the data object. -/
def make_response (request_id : String) (status : String)
    (data : Option JsonObj) (error : Option JsonObj) : Response :=
  { request_id := request_id, status := status, data := data.getD [], error := error }

/-- The wire form of a response, mirroring `json.dumps` of the dict that
`make_response` builds: four fixed fields, `error` serialised as null when
absent. -/
def Response.toJson (r : Response) : Json :=
  Json.obj [("request_id", Json.str r.request_id),
            ("status", Json.str r.status),
            ("data", Json.obj r.data),
            ("error", match r.error with
                      | none => Json.null
                      | some e => Json.obj e)]

/-- Environment snapshot consumed by dispatch: the lookup table read by
`load_local_data`, the clock string `now_iso()`, `platform.platform()`, and
the shared `active_clients` counter value read under the lock. -/
structure Env where
  table : JsonObj
  now : String
  platformStr : String
  activeCount : Int

/-- `validate_request` of `server.py`: structural checks in source order,
short-circuiting on the first failure, returning (is_valid, error_message). -/
def validate_request (obj : Json) : Bool × String :=
  match obj with
  | Json.obj kvs =>
    match lookupKey kvs "type" with
    | some (Json.str t) =>
      if pyStrip t = "" then (false, "Missing or invalid \x27type\x27 field")
      else
        match lookupKey kvs "request_id" with
        | some (Json.str rid) =>
          if pyStrip rid = "" then (false, "Missing or invalid \x27request_id\x27 field")
          else
            match lookupKey kvs "payload" with
            | some (Json.obj _) => (true, "")
            | _ => (false, "Missing or invalid \x27payload\x27 field (must be an object)")
        | _ => (false, "Missing or invalid \x27request_id\x27 field")
    | _ => (false, "Missing or invalid \x27type\x27 field")
  | _ => (false, "Request must be a JSON object")

/-- The body of `handle_request` of `server.py` after its first three lines
bind `req_type` (trimmed and upper-cased), `request_id` and `payload`: the
if-chain over the four supported types and the UNKNOWN_TYPE fallback. -/
def dispatch (env : Env) (req_type : String) (request_id : String)
    (payload : JsonObj) : Response :=
  if req_type = "ECHO" then
    match lookupKey payload "message" with
    | some (Json.str msg) =>
      make_response request_id "OK" (some [("echo", Json.str msg)]) none
    | _ =>
      make_response request_id "ERROR" none
        (some [("code", Json.str "BAD_REQUEST"),
               ("message", Json.str "ECHO requires payload.message (string)")])
  else if req_type = "SYSTEM_INFO" then
    make_response request_id "OK"
      (some [("server_name", Json.str SERVER_NAME),
             ("server_time", Json.str env.now),
             ("active_clients", Json.num env.activeCount),
             ("platform", Json.str env.platformStr)]) none
  else if req_type = "FILE_QUERY" then
    match lookupKey payload "key" with
    | some (Json.str keyRaw) =>
      if pyStrip keyRaw = "" then
        make_response request_id "ERROR" none
          (some [("code", Json.str "BAD_REQUEST"),
                 ("message", Json.str "FILE_QUERY requires payload.key (string)")])
      else
        let key := pyStrip keyRaw
        match lookupKey env.table key with
        | none =>
          make_response request_id "ERROR" none
            (some [("code", Json.str "NOT_FOUND"),
                   ("message", Json.str ("Key \x27" ++ key ++ "\x27 not found"))])
        | some v =>
          make_response request_id "OK"
            (some [("key", Json.str key), ("value", v)]) none
    | _ =>
      make_response request_id "ERROR" none
        (some [("code", Json.str "BAD_REQUEST"),
               ("message", Json.str "FILE_QUERY requires payload.key (string)")])
  else if req_type = "HELP" then
    make_response request_id "OK"
      (some [("supported_types",
              Json.arr [Json.str "ECHO", Json.str "SYSTEM_INFO",
                        Json.str "FILE_QUERY", Json.str "HELP"])]) none
  else
    make_response request_id "ERROR" none
      (some [("code", Json.str "UNKNOWN_TYPE"),
             ("message", Json.str ("Unknown request type: " ++ req_type))])

/-- `handle_request` of `server.py`: bind `req_type = req["type"].strip()
.upper()`, `request_id = req["request_id"]`, `payload = req["payload"]` and
run the dispatch if-chain. The source indexes these fields on a request that
already passed validation; `none` models the uncaught exception Python would
raise were a field missing or ill-typed (unreachable after validation). -/
def handle_request (env : Env) (req : Json) : Option Response :=
  match lookupKey req.fields "type", lookupKey req.fields "request_id",
        lookupKey req.fields "payload" with
  | some (Json.str tyRaw), some (Json.str request_id), some (Json.obj payload) =>
    some (dispatch env (pyUpper (pyStrip tyRaw)) request_id payload)
  | _, _, _ => none

/-- What one iteration of the read loop in `client_thread` does with one
(non-EOF) line: skip it silently, write one reply and continue, or write a
SERVER_ERROR reply and end the session (the uncaught-exception path). -/
inductive LineOutcome where
  | skip : LineOutcome
  | reply : Response → LineOutcome
  | fatal : Response → LineOutcome

/-- The response `client_thread` sends when `json.loads` fails on a line. -/
def INVALID_JSON_RESPONSE : Response :=
  make_response "" "ERROR" none
    (some [("code", Json.str "INVALID_JSON"),
           ("message", Json.str "Could not parse JSON request")])

/-- The response `client_thread` sends from its last-resort exception
handler, carrying the exception class name. -/
def SERVER_ERROR_RESPONSE (exName : String) : Response :=
  make_response "" "ERROR" none
    (some [("code", Json.str "SERVER_ERROR"),
           ("message", Json.str ("Unexpected error: " ++ exName))])

/-- The best-effort request id recovered on a validation failure:
`req_obj.get("request_id", "") if isinstance(req_obj, dict) else ""`,
then replaced by `""` unless it is a string. -/
def recoveredRequestId : Json → String
  | Json.obj kvs =>
    match lookupKey kvs "request_id" with
    | some (Json.str s) => s
    | _ => ""
  | _ => ""

/-- One iteration of the read loop of `client_thread` on one line, with the
external `json.loads` passed in as `decode` (`none` = `JSONDecodeError`):
strip the line, skip it when blank, else decode, validate, dispatch, and
build the reply exactly as the source does. -/
def processLine (decode : String → Option Json) (env : Env) (line : String) :
    LineOutcome :=
  let stripped := pyStrip line
  if stripped = "" then LineOutcome.skip
  else
    match decode stripped with
    | none => LineOutcome.reply INVALID_JSON_RESPONSE
    | some req_obj =>
      match validate_request req_obj with
      | (true, _) =>
        match handle_request env req_obj with
        | some resp => LineOutcome.reply resp
        | none => LineOutcome.fatal (SERVER_ERROR_RESPONSE "KeyError")
      | (false, msg) =>
        LineOutcome.reply
          (make_response (recoveredRequestId req_obj) "ERROR" none
            (some [("code", Json.str "BAD_REQUEST"), ("message", Json.str msg)]))

/-- An injected I/O fault during a send: the peer resetting the connection
(`ConnectionResetError`, handled by the bare `pass` branch), or any other
exception class (handled by the SERVER_ERROR branch). -/
inductive Fault where
  | reset : Fault
  | other : String → Fault

/-- How a session's read loop ended: orderly end of stream, a connection
reset, or the last-resort SERVER_ERROR path. -/
inductive ExitKind where
  | eof : ExitKind
  | reset : ExitKind
  | serverError : ExitKind

/-- The read loop of `client_thread` over a list of inbound lines.
`fault` optionally injects an exception at the n-th send (counted by
`sendIdx`); the result is the list of responses actually written and how
the loop ended. -/
def runLoop (decode : String → Option Json) (env : Env)
    (fault : Option (Nat × Fault)) :
    Nat → List String → List Response × ExitKind
  | _, [] => ([], ExitKind.eof)
  | sendIdx, l :: ls =>
    match processLine decode env l with
    | LineOutcome.skip => runLoop decode env fault sendIdx ls
    | LineOutcome.reply r =>
      match fault with
      | some (i, Fault.reset) =>
        if i = sendIdx then ([], ExitKind.reset)
        else
          let rest := runLoop decode env fault (sendIdx + 1) ls
          (r :: rest.1, rest.2)
      | some (i, Fault.other exName) =>
        if i = sendIdx then ([SERVER_ERROR_RESPONSE exName], ExitKind.serverError)
        else
          let rest := runLoop decode env fault (sendIdx + 1) ls
          (r :: rest.1, rest.2)
      | none =>
        let rest := runLoop decode env fault (sendIdx + 1) ls
        (r :: rest.1, rest.2)
    | LineOutcome.fatal r => ([r], ExitKind.serverError)

/-- The shared-state view of one session: the `active_clients` counter and
the trace of counter mutations, each tagged with whether the mutating code
held `active_clients_lock`. -/
structure ClientState where
  counter : Int
  events : List (Bool × Int)

/-- A counter mutation performed inside `with active_clients_lock`. -/
def lockedAdd (s : ClientState) (d : Int) : ClientState :=
  { counter := s.counter + d, events := s.events ++ [(true, d)] }

/-- `client_thread` of `server.py`: increment the shared counter under the
lock, run the read loop to any of its exits, then (in `finally`) close the
socket and decrement the counter under the lock. -/
def client_thread (decode : String → Option Json) (env : Env)
    (fault : Option (Nat × Fault)) (lines : List String) (s : ClientState) :
    ClientState × List Response × ExitKind :=
  let s1 := lockedAdd s 1
  let r := runLoop decode env fault 0 lines
  let s2 := lockedAdd s1 (-1)
  (s2, r.1, r.2)

/-! Supporting lemmas about validation and dispatch. -/

/-- Every branch of the dispatch if-chain answers with the request's own id. -/
theorem dispatch_request_id (env : Env) (t rid : String) (pl : JsonObj) :
    (dispatch env t rid pl).request_id = rid := by
  unfold dispatch
  repeat' split
  all_goals try rfl
  all_goals (dsimp only []; split <;> rfl)

/-- Unfolding `handle_request` on an object whose three fields have the
validated shapes. -/
theorem handle_request_eq (env : Env) (kvs : JsonObj) (ty rid : String)
    (pl : JsonObj)
    (hty : lookupKey kvs "type" = some (Json.str ty))
    (hrid : lookupKey kvs "request_id" = some (Json.str rid))
    (hpl : lookupKey kvs "payload" = some (Json.obj pl)) :
    handle_request env (Json.obj kvs) =
      some (dispatch env (pyUpper (pyStrip ty)) rid pl) := by
  unfold handle_request
  simp only [Json.fields, hty, hrid, hpl]

/-- What `validate_request` returning valid guarantees about the request. -/
theorem validate_request_true_elim (obj : Json)
    (h : (validate_request obj).1 = true) :
    ∃ kvs ty rid pl, obj = Json.obj kvs ∧
      lookupKey kvs "type" = some (Json.str ty) ∧ pyStrip ty ≠ "" ∧
      lookupKey kvs "request_id" = some (Json.str rid) ∧ pyStrip rid ≠ "" ∧
      lookupKey kvs "payload" = some (Json.obj pl) := by
  cases obj with
  | null => simp [validate_request] at h
  | bool b => simp [validate_request] at h
  | num n => simp [validate_request] at h
  | str s => simp [validate_request] at h
  | arr xs => simp [validate_request] at h
  | obj kvs =>
    simp only [validate_request] at h
    split at h
    next ty hty =>
      split at h
      next => simp at h
      next hts =>
        split at h
        next rid hrid =>
          split at h
          next => simp at h
          next hrs =>
            split at h
            next pl hpl => exact ⟨kvs, ty, rid, pl, rfl, hty, hts, hrid, hrs, hpl⟩
            next => simp at h
        next => simp at h
    next => simp at h

/-- The request id claim C1 calls for on a given line: the decoded object
field `request_id` when it is a string, else the empty string. Stated from
the claim text, for comparison with what the session actually answers. -/
def claimedRequestId (decode : String → Option Json) (line : String) : String :=
  match decode (pyStrip line) with
  | some (Json.obj kvs) =>
    match lookupKey kvs "request_id" with
    | some (Json.str s) => s
    | _ => ""
  | _ => ""

/-- When the line decodes, the claimed id is the recovered best-effort id. -/
theorem claimedRequestId_of_decode (decode : String → Option Json)
    (line : String) (j : Json) (hd : decode (pyStrip line) = some j) :
    claimedRequestId decode line = recoveredRequestId j := by
  unfold claimedRequestId recoveredRequestId
  rw [hd]
  cases j <;> rfl

/-- When the line does not decode, the claimed id is empty. -/
theorem claimedRequestId_of_nodecode (decode : String → Option Json)
    (line : String) (hd : decode (pyStrip line) = none) :
    claimedRequestId decode line = "" := by
  unfold claimedRequestId
  rw [hd]

/-- C1. For every request line that draws a response from the session loop,
the response's `request_id` is the decoded object's string-valued
`request_id` (even when validation later fails), and the empty string in
every other case (unparseable line, non-object value, non-string id). -/
theorem response_request_id_correlation (decode : String → Option Json)
    (env : Env) (line : String) (r : Response)
    (h : processLine decode env line = LineOutcome.reply r ∨
         processLine decode env line = LineOutcome.fatal r) :
    r.request_id = claimedRequestId decode line := by
  simp only [processLine] at h
  by_cases hb : pyStrip line = ""
  · rw [if_pos hb] at h
    rcases h with h | h <;> exact absurd h (by simp)
  · rw [if_neg hb] at h
    rcases hd : decode (pyStrip line) with _ | j
    · rw [hd] at h
      dsimp only [] at h
      rw [claimedRequestId_of_nodecode decode line hd]
      rcases h with h | h
      · injection h with h
        subst h
        rfl
      · exact absurd h (by simp)
    · rw [hd] at h
      dsimp only [] at h
      rw [claimedRequestId_of_decode decode line j hd]
      rcases hv : validate_request j with ⟨b, msg⟩
      rw [hv] at h
      cases b
      · rcases h with h | h
        · injection h with h
          subst h
          rfl
        · exact absurd h (by simp)
      · obtain ⟨kvs, ty, rid, pl, hobj, hty, hts, hrid, hrs, hpl⟩ :=
          validate_request_true_elim j (by rw [hv])
        subst hobj
        rw [handle_request_eq env kvs ty rid pl hty hrid hpl] at h
        rcases h with h | h
        · injection h with h
          subst h
          rw [dispatch_request_id]
          simp [recoveredRequestId, hrid]
        · exact absurd h (by simp)

/-! Concrete fixtures used to instantiate the theorems. -/

/-- A small concrete environment: one table entry, fixed clock and platform. -/
def env0 : Env :=
  { table := [("alpha", Json.str "A")], now := "2026-01-01T00:00:00+00:00",
    platformStr := "TestPlatform", activeCount := 1 }

/-- A concrete well-formed ECHO request. -/
def echoReq : Json :=
  Json.obj [("type", Json.str "ECHO"), ("request_id", Json.str "r1"),
            ("payload", Json.obj [("message", Json.str "hi")])]

/-- C1 witness: on a line decoding to a well-formed ECHO request with id
"r1", the session's reply carries exactly the claimed id. -/
theorem response_request_id_correlation_witness :
    (make_response "r1" "OK" (some [("echo", Json.str "hi")]) none).request_id
      = claimedRequestId (fun _ => some echoReq) "x" :=
  response_request_id_correlation (fun _ => some echoReq) env0 "x"
    (make_response "r1" "OK" (some [("echo", Json.str "hi")]) none) (Or.inl rfl)

/-- The response the session writes when a line decodes to a non-object
JSON value: the validator's first check fails. -/
def NOT_OBJECT_RESPONSE : Response :=
  make_response "" "ERROR" none
    (some [("code", Json.str "BAD_REQUEST"),
           ("message", Json.str "Request must be a JSON object")])

/-- C2 counterexample: a line decoding to the bare number 5 is answered with
error code BAD_REQUEST (built from the validator's reason), not with the
INVALID_JSON response the claim states. -/
theorem nonobject_json_counterexample :
    processLine (fun _ => some (Json.num 5)) env0 "5" =
      LineOutcome.reply NOT_OBJECT_RESPONSE
    ∧ NOT_OBJECT_RESPONSE.error
        = some [("code", Json.str "BAD_REQUEST"),
                ("message", Json.str "Request must be a JSON object")]
    ∧ ("BAD_REQUEST" : String) ≠ "INVALID_JSON" :=
  ⟨rfl, rfl, by decide⟩

/-- C2 (amended): a line decoding to a JSON value that is not an object is
treated as a validation failure: the session writes a BAD_REQUEST error
response with message "Request must be a JSON object" and empty
`request_id`, and the connection stays open (the loop continues with the
remaining lines, its exit unchanged). -/
theorem nonobject_json_bad_request (decode : String → Option Json) (env : Env)
    (line : String) (j : Json) (n : Nat) (ls : List String)
    (hd : decode (pyStrip line) = some j)
    (hobj : j.isObj = false)
    (hne : pyStrip line ≠ "") :
    processLine decode env line = LineOutcome.reply NOT_OBJECT_RESPONSE ∧
    runLoop decode env none n (line :: ls) =
      (NOT_OBJECT_RESPONSE :: (runLoop decode env none (n + 1) ls).1,
       (runLoop decode env none (n + 1) ls).2) := by
  have hval : validate_request j = (false, "Request must be a JSON object") := by
    cases j with
    | obj kvs => simp [Json.isObj] at hobj
    | null => rfl
    | bool b => rfl
    | num n => rfl
    | str s => rfl
    | arr xs => rfl
  have hrec : recoveredRequestId j = "" := by
    cases j with
    | obj kvs => simp [Json.isObj] at hobj
    | null => rfl
    | bool b => rfl
    | num n => rfl
    | str s => rfl
    | arr xs => rfl
  have hp : processLine decode env line = LineOutcome.reply NOT_OBJECT_RESPONSE := by
    simp only [processLine]
    rw [if_neg hne, hd]
    dsimp only []
    rw [hval]
    dsimp only []
    rw [hrec]
    rfl
  refine ⟨hp, ?_⟩
  simp only [runLoop, hp]

/-- C2 witness for the amended statement, at the bare number 5. -/
theorem nonobject_json_bad_request_witness :
    processLine (fun _ => some (Json.num 5)) env0 "5" =
      LineOutcome.reply NOT_OBJECT_RESPONSE ∧
    runLoop (fun _ => some (Json.num 5)) env0 none 0 ["5"] =
      (NOT_OBJECT_RESPONSE :: (runLoop (fun _ => some (Json.num 5)) env0 none 1 []).1,
       (runLoop (fun _ => some (Json.num 5)) env0 none 1 []).2) :=
  nonobject_json_bad_request (fun _ => some (Json.num 5)) env0 "5" (Json.num 5) 0 []
    rfl rfl (by decide)

/-- A concrete validated request whose type, "foo", is unsupported. -/
def fooReq : Json :=
  Json.obj [("type", Json.str "foo"), ("request_id", Json.str "r9"),
            ("payload", Json.obj [])]

/-- C3 counterexample: for the validated request of type "foo" the
UNKNOWN_TYPE message reads "Unknown request type: FOO": it echoes the
trimmed upper-cased type, not the type string as the client sent it. -/
theorem unknown_type_counterexample :
    (validate_request fooReq).1 = true ∧
    handle_request env0 fooReq =
      some (make_response "r9" "ERROR" none
        (some [("code", Json.str "UNKNOWN_TYPE"),
               ("message", Json.str "Unknown request type: FOO")])) ∧
    ("Unknown request type: FOO" : String) ≠ "Unknown request type: " ++ "foo" :=
  ⟨rfl, rfl, by decide⟩

/-- C3 (amended): for every validated request whose trimmed upper-cased type
is none of ECHO, SYSTEM_INFO, FILE_QUERY, HELP, the dispatcher answers ERROR
with code UNKNOWN_TYPE and a message echoing the trimmed upper-cased type
string. -/
theorem unknown_type_response (env : Env) (kvs : JsonObj) (ty rid : String)
    (pl : JsonObj)
    (_hv : (validate_request (Json.obj kvs)).1 = true)
    (hty : lookupKey kvs "type" = some (Json.str ty))
    (hrid : lookupKey kvs "request_id" = some (Json.str rid))
    (hpl : lookupKey kvs "payload" = some (Json.obj pl))
    (h1 : pyUpper (pyStrip ty) ≠ "ECHO")
    (h2 : pyUpper (pyStrip ty) ≠ "SYSTEM_INFO")
    (h3 : pyUpper (pyStrip ty) ≠ "FILE_QUERY")
    (h4 : pyUpper (pyStrip ty) ≠ "HELP") :
    handle_request env (Json.obj kvs) =
      some (make_response rid "ERROR" none
        (some [("code", Json.str "UNKNOWN_TYPE"),
               ("message",
                Json.str ("Unknown request type: " ++ pyUpper (pyStrip ty)))])) := by
  rw [handle_request_eq env kvs ty rid pl hty hrid hpl]
  unfold dispatch
  rw [if_neg h1, if_neg h2, if_neg h3, if_neg h4]

/-- C3 witness for the amended statement, at the type string "foo". -/
theorem unknown_type_response_witness :
    handle_request env0 (Json.obj [("type", Json.str "foo"),
        ("request_id", Json.str "r9"), ("payload", Json.obj [])]) =
      some (make_response "r9" "ERROR" none
        (some [("code", Json.str "UNKNOWN_TYPE"),
               ("message",
                Json.str ("Unknown request type: " ++ pyUpper (pyStrip "foo")))])) :=
  unknown_type_response env0
    [("type", Json.str "foo"), ("request_id", Json.str "r9"),
     ("payload", Json.obj [])] "foo" "r9" [] rfl rfl rfl rfl
    (by decide) (by decide) (by decide) (by decide)

/-- C5. For every validated ECHO request: when `payload.message` is a
string the response is OK with `data.echo` exactly that string; when
`payload.message` is missing or not a string the response is ERROR with
code BAD_REQUEST. -/
theorem echo_behavior (env : Env) (kvs : JsonObj) (ty rid : String)
    (pl : JsonObj)
    (_hv : (validate_request (Json.obj kvs)).1 = true)
    (hty : lookupKey kvs "type" = some (Json.str ty))
    (hec : pyUpper (pyStrip ty) = "ECHO")
    (hrid : lookupKey kvs "request_id" = some (Json.str rid))
    (hpl : lookupKey kvs "payload" = some (Json.obj pl)) :
    (∀ m, lookupKey pl "message" = some (Json.str m) →
      handle_request env (Json.obj kvs) =
        some (make_response rid "OK" (some [("echo", Json.str m)]) none)) ∧
    ((∀ m, lookupKey pl "message" ≠ some (Json.str m)) →
      handle_request env (Json.obj kvs) =
        some (make_response rid "ERROR" none
          (some [("code", Json.str "BAD_REQUEST"),
                 ("message", Json.str "ECHO requires payload.message (string)")]))) := by
  rw [handle_request_eq env kvs ty rid pl hty hrid hpl, hec]
  unfold dispatch
  rw [if_pos rfl]
  constructor
  · intro m hm
    rw [hm]
  · intro hnone
    rcases hm : lookupKey pl "message" with _ | j
    · rfl
    · cases j with
      | str m => exact absurd hm (hnone m)
      | null => rfl
      | bool b => rfl
      | num n => rfl
      | arr xs => rfl
      | obj o => rfl

/-- C5 witness: the concrete ECHO request with message "hi", and an ECHO
request whose message is a number. -/
theorem echo_behavior_witness :
    handle_request env0 echoReq =
      some (make_response "r1" "OK" (some [("echo", Json.str "hi")]) none) ∧
    handle_request env0 (Json.obj [("type", Json.str "ECHO"),
        ("request_id", Json.str "r1"), ("payload", Json.obj [("message", Json.num 3)])]) =
      some (make_response "r1" "ERROR" none
        (some [("code", Json.str "BAD_REQUEST"),
               ("message", Json.str "ECHO requires payload.message (string)")])) :=
  ⟨(echo_behavior env0 [("type", Json.str "ECHO"), ("request_id", Json.str "r1"),
      ("payload", Json.obj [("message", Json.str "hi")])] "ECHO" "r1"
      [("message", Json.str "hi")] rfl rfl rfl rfl rfl).1 "hi" rfl,
   (echo_behavior env0 [("type", Json.str "ECHO"), ("request_id", Json.str "r1"),
      ("payload", Json.obj [("message", Json.num 3)])] "ECHO" "r1"
      [("message", Json.num 3)] rfl rfl rfl rfl rfl).2 (by intro m hm; cases hm)⟩

/-- C8. For every validated HELP request, whatever its payload, the
response is OK and `data.supported_types` is exactly the fixed list
[ECHO, SYSTEM_INFO, FILE_QUERY, HELP] in that order; HELP never fails. -/
theorem help_response_fixed (env : Env) (kvs : JsonObj) (ty rid : String)
    (pl : JsonObj)
    (_hv : (validate_request (Json.obj kvs)).1 = true)
    (hty : lookupKey kvs "type" = some (Json.str ty))
    (hh : pyUpper (pyStrip ty) = "HELP")
    (hrid : lookupKey kvs "request_id" = some (Json.str rid))
    (hpl : lookupKey kvs "payload" = some (Json.obj pl)) :
    handle_request env (Json.obj kvs) =
      some (make_response rid "OK"
        (some [("supported_types",
                Json.arr [Json.str "ECHO", Json.str "SYSTEM_INFO",
                          Json.str "FILE_QUERY", Json.str "HELP"])]) none) := by
  rw [handle_request_eq env kvs ty rid pl hty hrid hpl, hh]
  unfold dispatch
  rw [if_neg (by decide), if_neg (by decide), if_neg (by decide), if_pos rfl]

/-- C8 witness: the concrete HELP request with id "r3". -/
theorem help_response_fixed_witness :
    handle_request env0 (Json.obj [("type", Json.str "HELP"),
        ("request_id", Json.str "r3"), ("payload", Json.obj [])]) =
      some (make_response "r3" "OK"
        (some [("supported_types",
                Json.arr [Json.str "ECHO", Json.str "SYSTEM_INFO",
                          Json.str "FILE_QUERY", Json.str "HELP"])]) none) :=
  help_response_fixed env0 [("type", Json.str "HELP"),
    ("request_id", Json.str "r3"), ("payload", Json.obj [])] "HELP" "r3" []
    rfl rfl rfl rfl rfl

/-- The response of the FILE_QUERY branch once a non-blank string key has
been extracted and trimmed: NOT_FOUND when the trimmed key is absent from
the table, else OK with exactly the trimmed key and its table value. -/
def fileQueryResult (env : Env) (rid : String) (key : String) : Response :=
  match lookupKey env.table key with
  | none =>
    make_response rid "ERROR" none
      (some [("code", Json.str "NOT_FOUND"),
             ("message", Json.str ("Key \x27" ++ key ++ "\x27 not found"))])
  | some v =>
    make_response rid "OK" (some [("key", Json.str key), ("value", v)]) none

/-- A validated FILE_QUERY request with a non-blank string key answers with
`fileQueryResult` of the trimmed key: the trimmed key alone determines the
lookup and the reply. -/
theorem handle_request_file_query (env : Env) (kvs : JsonObj) (ty rid : String)
    (pl : JsonObj) (s : String)
    (hty : lookupKey kvs "type" = some (Json.str ty))
    (hfq : pyUpper (pyStrip ty) = "FILE_QUERY")
    (hrid : lookupKey kvs "request_id" = some (Json.str rid))
    (hpl : lookupKey kvs "payload" = some (Json.obj pl))
    (hkey : lookupKey pl "key" = some (Json.str s))
    (hnb : pyStrip s ≠ "") :
    handle_request env (Json.obj kvs) =
      some (fileQueryResult env rid (pyStrip s)) := by
  rw [handle_request_eq env kvs ty rid pl hty hrid hpl, hfq]
  unfold dispatch
  rw [if_neg (by decide), if_neg (by decide), if_pos rfl, hkey]
  dsimp only []
  rw [if_neg hnb]
  unfold fileQueryResult
  rcases htab : lookupKey env.table (pyStrip s) with _ | v
  · rfl
  · rfl

/-- C4. For every validated FILE_QUERY request: a missing, non-string or
blank `payload.key` draws ERROR/BAD_REQUEST; a non-blank key absent from
the lookup table draws ERROR/NOT_FOUND; a present key draws OK with data
exactly the (trimmed) key and its table value. -/
theorem file_query_behavior (env : Env) (kvs : JsonObj) (ty rid : String)
    (pl : JsonObj)
    (_hv : (validate_request (Json.obj kvs)).1 = true)
    (hty : lookupKey kvs "type" = some (Json.str ty))
    (hfq : pyUpper (pyStrip ty) = "FILE_QUERY")
    (hrid : lookupKey kvs "request_id" = some (Json.str rid))
    (hpl : lookupKey kvs "payload" = some (Json.obj pl)) :
    ((∀ s, lookupKey pl "key" = some (Json.str s) → pyStrip s = "") →
      handle_request env (Json.obj kvs) =
        some (make_response rid "ERROR" none
          (some [("code", Json.str "BAD_REQUEST"),
                 ("message", Json.str "FILE_QUERY requires payload.key (string)")]))) ∧
    (∀ s, lookupKey pl "key" = some (Json.str s) → pyStrip s ≠ "" →
      lookupKey env.table (pyStrip s) = none →
      handle_request env (Json.obj kvs) =
        some (make_response rid "ERROR" none
          (some [("code", Json.str "NOT_FOUND"),
                 ("message", Json.str ("Key \x27" ++ pyStrip s ++ "\x27 not found"))]))) ∧
    (∀ s v, lookupKey pl "key" = some (Json.str s) → pyStrip s ≠ "" →
      lookupKey env.table (pyStrip s) = some v →
      handle_request env (Json.obj kvs) =
        some (make_response rid "OK"
          (some [("key", Json.str (pyStrip s)), ("value", v)]) none)) := by
  refine ⟨?_, ?_, ?_⟩
  · intro hblank
    rw [handle_request_eq env kvs ty rid pl hty hrid hpl, hfq]
    unfold dispatch
    rw [if_neg (by decide), if_neg (by decide), if_pos rfl]
    rcases hk : lookupKey pl "key" with _ | j
    · rfl
    · cases j with
      | str s =>
        dsimp only []
        rw [if_pos (hblank s hk)]
      | null => rfl
      | bool b => rfl
      | num n => rfl
      | arr xs => rfl
      | obj o => rfl
  · intro s hk hnb htab
    rw [handle_request_file_query env kvs ty rid pl s hty hfq hrid hpl hk hnb]
    unfold fileQueryResult
    rw [htab]
  · intro s v hk hnb htab
    rw [handle_request_file_query env kvs ty rid pl s hty hfq hrid hpl hk hnb]
    unfold fileQueryResult
    rw [htab]

/-- C4 witness: against the table containing only "alpha", a blank key, the
missing key "beta" and the present key "alpha". -/
theorem file_query_behavior_witness :
    handle_request env0 (Json.obj [("type", Json.str "FILE_QUERY"),
        ("request_id", Json.str "r2"), ("payload", Json.obj [("key", Json.str " ")])]) =
      some (make_response "r2" "ERROR" none
        (some [("code", Json.str "BAD_REQUEST"),
               ("message", Json.str "FILE_QUERY requires payload.key (string)")])) ∧
    handle_request env0 (Json.obj [("type", Json.str "FILE_QUERY"),
        ("request_id", Json.str "r2"), ("payload", Json.obj [("key", Json.str "beta")])]) =
      some (make_response "r2" "ERROR" none
        (some [("code", Json.str "NOT_FOUND"),
               ("message", Json.str ("Key \x27" ++ pyStrip "beta" ++ "\x27 not found"))])) ∧
    handle_request env0 (Json.obj [("type", Json.str "FILE_QUERY"),
        ("request_id", Json.str "r2"), ("payload", Json.obj [("key", Json.str "alpha")])]) =
      some (make_response "r2" "OK"
        (some [("key", Json.str (pyStrip "alpha")), ("value", Json.str "A")]) none) :=
  ⟨(file_query_behavior env0 [("type", Json.str "FILE_QUERY"),
      ("request_id", Json.str "r2"), ("payload", Json.obj [("key", Json.str " ")])]
      "FILE_QUERY" "r2" [("key", Json.str " ")] rfl rfl rfl rfl rfl).1
      (by intro s hs; cases hs; rfl),
   (file_query_behavior env0 [("type", Json.str "FILE_QUERY"),
      ("request_id", Json.str "r2"), ("payload", Json.obj [("key", Json.str "beta")])]
      "FILE_QUERY" "r2" [("key", Json.str "beta")] rfl rfl rfl rfl rfl).2.1
      "beta" rfl (by decide) rfl,
   (file_query_behavior env0 [("type", Json.str "FILE_QUERY"),
      ("request_id", Json.str "r2"), ("payload", Json.obj [("key", Json.str "alpha")])]
      "FILE_QUERY" "r2" [("key", Json.str "alpha")] rfl rfl rfl rfl rfl).2.2
      "alpha" (Json.str "A") rfl (by decide) rfl⟩

/-- C10. For every validated FILE_QUERY request with a string key that is
non-blank after trimming, the reply is determined by the trimmed key: the
trimmed key is looked up and is the `key` the data carries, and any two
such requests (same id) whose keys agree after trimming draw the same
reply, e.g. " foo " behaves as "foo". -/
theorem file_query_key_trimmed (env : Env) (kvs : JsonObj) (ty rid : String)
    (pl : JsonObj) (s : String)
    (_hv : (validate_request (Json.obj kvs)).1 = true)
    (hty : lookupKey kvs "type" = some (Json.str ty))
    (hfq : pyUpper (pyStrip ty) = "FILE_QUERY")
    (hrid : lookupKey kvs "request_id" = some (Json.str rid))
    (hpl : lookupKey kvs "payload" = some (Json.obj pl))
    (hkey : lookupKey pl "key" = some (Json.str s))
    (hnb : pyStrip s ≠ "") :
    handle_request env (Json.obj kvs) =
      some (fileQueryResult env rid (pyStrip s)) ∧
    (∀ v, lookupKey env.table (pyStrip s) = some v →
      handle_request env (Json.obj kvs) =
        some (make_response rid "OK"
          (some [("key", Json.str (pyStrip s)), ("value", v)]) none)) ∧
    (∀ kvs2 ty2 pl2 s2,
      lookupKey kvs2 "type" = some (Json.str ty2) →
      pyUpper (pyStrip ty2) = "FILE_QUERY" →
      lookupKey kvs2 "request_id" = some (Json.str rid) →
      lookupKey kvs2 "payload" = some (Json.obj pl2) →
      lookupKey pl2 "key" = some (Json.str s2) →
      pyStrip s2 = pyStrip s →
      handle_request env (Json.obj kvs2) = handle_request env (Json.obj kvs)) := by
  have hmain := handle_request_file_query env kvs ty rid pl s hty hfq hrid hpl hkey hnb
  refine ⟨hmain, ?_, ?_⟩
  · intro v htab
    rw [hmain]
    unfold fileQueryResult
    rw [htab]
  · intro kvs2 ty2 pl2 s2 hty2 hfq2 hrid2 hpl2 hkey2 heq
    have hnb2 : pyStrip s2 ≠ "" := by rw [heq]; exact hnb
    rw [handle_request_file_query env kvs2 ty2 rid pl2 s2 hty2 hfq2 hrid2 hpl2 hkey2 hnb2,
        heq, hmain]

/-- C10 witness: the keys " alpha " and "alpha" draw the same OK reply with
`data.key = "alpha"`. -/
theorem file_query_key_trimmed_witness :
    handle_request env0 (Json.obj [("type", Json.str "FILE_QUERY"),
        ("request_id", Json.str "r2"), ("payload", Json.obj [("key", Json.str " alpha ")])]) =
      some (fileQueryResult env0 "r2" (pyStrip " alpha ")) ∧
    handle_request env0 (Json.obj [("type", Json.str "FILE_QUERY"),
        ("request_id", Json.str "r2"), ("payload", Json.obj [("key", Json.str " alpha ")])]) =
      some (make_response "r2" "OK"
        (some [("key", Json.str (pyStrip " alpha ")), ("value", Json.str "A")]) none) ∧
    handle_request env0 (Json.obj [("type", Json.str "FILE_QUERY"),
        ("request_id", Json.str "r2"), ("payload", Json.obj [("key", Json.str "alpha")])]) =
      handle_request env0 (Json.obj [("type", Json.str "FILE_QUERY"),
        ("request_id", Json.str "r2"), ("payload", Json.obj [("key", Json.str " alpha ")])]) := by
  have h := file_query_key_trimmed env0 [("type", Json.str "FILE_QUERY"),
    ("request_id", Json.str "r2"), ("payload", Json.obj [("key", Json.str " alpha ")])]
    "FILE_QUERY" "r2" [("key", Json.str " alpha ")] " alpha "
    rfl rfl rfl rfl rfl rfl (by decide)
  exact ⟨h.1, h.2.1 (Json.str "A") rfl,
    h.2.2 [("type", Json.str "FILE_QUERY"), ("request_id", Json.str "r2"),
      ("payload", Json.obj [("key", Json.str "alpha")])] "FILE_QUERY"
      [("key", Json.str "alpha")] "alpha" rfl rfl rfl rfl rfl (by decide)⟩

/-- C6. Over any session — any inbound lines and any injected send fault,
so every exit path including the error ones — the shared counter is
mutated exactly twice, +1 at session start and -1 at session end, both
under the lock (event flag true), and its net change is zero. -/
theorem session_counter_balanced (decode : String → Option Json) (env : Env)
    (fault : Option (Nat × Fault)) (lines : List String) (s : ClientState) :
    ((client_thread decode env fault lines s).1).counter = s.counter ∧
    ((client_thread decode env fault lines s).1).events
      = s.events ++ [(true, 1), (true, -1)] := by
  constructor
  · show s.counter + 1 + -1 = s.counter
    omega
  · show (s.events ++ [(true, 1)]) ++ [(true, -1)]
      = s.events ++ [(true, 1), (true, -1)]
    simp

/-- C9. A line that is empty or whitespace-only after stripping draws no
response and changes nothing: the iteration is a skip and the loop
continues on the remaining lines with the same send counter. -/
theorem blank_line_skipped (decode : String → Option Json) (env : Env)
    (fault : Option (Nat × Fault)) (n : Nat) (line : String) (ls : List String)
    (h : pyStrip line = "") :
    processLine decode env line = LineOutcome.skip ∧
    runLoop decode env fault n (line :: ls) = runLoop decode env fault n ls := by
  have hp : processLine decode env line = LineOutcome.skip := by
    simp only [processLine]
    rw [if_pos h]
  refine ⟨hp, ?_⟩
  simp only [runLoop, hp]

/-- C9 witness: a line of three spaces is skipped. -/
theorem blank_line_skipped_witness :
    processLine (fun _ => none) env0 "   " = LineOutcome.skip ∧
    runLoop (fun _ => none) env0 none 0 ["   "] =
      runLoop (fun _ => none) env0 none 0 [] :=
  blank_line_skipped (fun _ => none) env0 none 0 "   " [] rfl

/-- The response shape invariant of the protocol: status is OK or ERROR,
`error` is null exactly on OK, an OK response carries real content in
`data`, an ERROR response carries empty `data` and a {code, message} error
object, and the serialised response always carries `data` as an object. -/
def responseWF (r : Response) : Prop :=
  (r.status = "OK" ∨ r.status = "ERROR") ∧
  (r.error = none ↔ r.status = "OK") ∧
  (r.status = "OK" → r.data ≠ []) ∧
  (r.status = "ERROR" → r.data = [] ∧
    ∃ c m, r.error = some [("code", Json.str c), ("message", Json.str m)]) ∧
  lookupKey (Response.toJson r).fields "data" = some (Json.obj r.data)

/-- A successful response with non-empty data satisfies the invariant. -/
theorem responseWF_ok (rid : String) (d : JsonObj) (hd : d ≠ []) :
    responseWF (make_response rid "OK" (some d) none) :=
  ⟨Or.inl rfl, ⟨fun _ => rfl, fun _ => rfl⟩, fun _ => hd,
   fun h => absurd (show ("OK" : String) = "ERROR" from h) (by decide), rfl⟩

/-- An error response with a {code, message} object satisfies the invariant. -/
theorem responseWF_error (rid c m : String) :
    responseWF (make_response rid "ERROR" none
      (some [("code", Json.str c), ("message", Json.str m)])) :=
  ⟨Or.inr rfl,
   ⟨fun h => Option.noConfusion
      (show some ([("code", Json.str c), ("message", Json.str m)] : JsonObj) = none
       from h),
    fun h => absurd (show ("ERROR" : String) = "OK" from h) (by decide)⟩,
   fun h => absurd (show ("ERROR" : String) = "OK" from h) (by decide),
   fun _ => ⟨rfl, c, m, rfl⟩,
   rfl⟩

/-- Every branch of the dispatch if-chain satisfies the shape invariant. -/
theorem dispatch_wf (env : Env) (t rid : String) (pl : JsonObj) :
    responseWF (dispatch env t rid pl) := by
  unfold dispatch
  repeat' split
  all_goals try exact responseWF_ok _ _ (by simp)
  all_goals try exact responseWF_error _ _ _
  all_goals
    dsimp only []
    split
    · exact responseWF_error _ _ _
    · exact responseWF_ok _ _ (by simp)

/-- Every response built by one loop iteration satisfies the invariant. -/
theorem processLine_wf (decode : String → Option Json) (env : Env)
    (line : String) (r : Response)
    (h : processLine decode env line = LineOutcome.reply r ∨
         processLine decode env line = LineOutcome.fatal r) :
    responseWF r := by
  simp only [processLine] at h
  by_cases hb : pyStrip line = ""
  · rw [if_pos hb] at h
    rcases h with h | h <;> exact absurd h (by simp)
  · rw [if_neg hb] at h
    rcases hd : decode (pyStrip line) with _ | j
    · rw [hd] at h
      dsimp only [] at h
      rcases h with h | h
      · injection h with h
        subst h
        exact responseWF_error _ _ _
      · exact absurd h (by simp)
    · rw [hd] at h
      dsimp only [] at h
      rcases hv : validate_request j with ⟨b, msg⟩
      rw [hv] at h
      cases b
      · rcases h with h | h
        · injection h with h
          subst h
          exact responseWF_error _ _ _
        · exact absurd h (by simp)
      · obtain ⟨kvs, ty, rid, pl, hobj, hty, hts, hrid, hrs, hpl⟩ :=
          validate_request_true_elim j (by rw [hv])
        subst hobj
        rw [handle_request_eq env kvs ty rid pl hty hrid hpl] at h
        dsimp only [] at h
        rcases h with h | h
        · injection h with h
          subst h
          exact dispatch_wf env _ rid pl
        · exact absurd h (by simp)

/-- The SERVER_ERROR response of the last-resort handler is well-shaped. -/
theorem server_error_wf (exName : String) :
    responseWF (SERVER_ERROR_RESPONSE exName) :=
  responseWF_error "" "SERVER_ERROR" ("Unexpected error: " ++ exName)

/-- Every response a session's read loop writes satisfies the invariant. -/
theorem runLoop_wf (decode : String → Option Json) (env : Env)
    (fault : Option (Nat × Fault)) :
    ∀ (lines : List String) (n : Nat) (r : Response),
      r ∈ (runLoop decode env fault n lines).1 → responseWF r := by
  intro lines
  induction lines with
  | nil =>
    intro n r h
    simp [runLoop] at h
  | cons l ls ih =>
    intro n r h
    simp only [runLoop] at h
    rcases hp : processLine decode env l with _ | r' | r'
    · rw [hp] at h
      exact ih n r h
    · rw [hp] at h
      dsimp only [] at h
      rcases fault with _ | ⟨i, f⟩
      · dsimp only [] at h
        rcases List.mem_cons.mp h with rfl | h
        · exact processLine_wf decode env l r (Or.inl hp)
        · exact ih (n + 1) r h
      · cases f with
        | reset =>
          dsimp only [] at h
          by_cases hi : i = n
          · rw [if_pos hi] at h
            simp at h
          · rw [if_neg hi] at h
            rcases List.mem_cons.mp h with rfl | h
            · exact processLine_wf decode env l r (Or.inl hp)
            · exact ih (n + 1) r h
        | other exName =>
          dsimp only [] at h
          by_cases hi : i = n
          · rw [if_pos hi] at h
            rcases List.mem_cons.mp h with rfl | h
            · exact server_error_wf exName
            · simp at h
          · rw [if_neg hi] at h
            rcases List.mem_cons.mp h with rfl | h
            · exact processLine_wf decode env l r (Or.inl hp)
            · exact ih (n + 1) r h
    · rw [hp] at h
      rcases List.mem_cons.mp h with rfl | h
      · exact processLine_wf decode env l r (Or.inr hp)
      · simp at h

/-- C7. Every response a session writes satisfies the shape invariant:
status is OK or ERROR, `error` is null exactly when status is OK, an OK
response carries non-empty `data`, an ERROR response carries empty `data`
and a {code, message} error object, and the serialised form always carries
`data` as a JSON object (never omitted). -/
theorem response_shape_invariant (decode : String → Option Json) (env : Env)
    (fault : Option (Nat × Fault)) (lines : List String) (r : Response)
    (h : r ∈ (runLoop decode env fault 0 lines).1) :
    (r.status = "OK" ∨ r.status = "ERROR") ∧
    (r.error = none ↔ r.status = "OK") ∧
    (r.status = "OK" → r.data ≠ []) ∧
    (r.status = "ERROR" → r.data = [] ∧
      ∃ c m, r.error = some [("code", Json.str c), ("message", Json.str m)]) ∧
    lookupKey (Response.toJson r).fields "data" = some (Json.obj r.data) :=
  runLoop_wf decode env fault lines 0 r h

/-- A concrete well-formed HELP request and its fixed reply. -/
def helpReq : Json :=
  Json.obj [("type", Json.str "HELP"), ("request_id", Json.str "r3"),
            ("payload", Json.obj [])]

/-- The reply the session writes for `helpReq`. -/
def helpResp : Response :=
  make_response "r3" "OK"
    (some [("supported_types",
            Json.arr [Json.str "ECHO", Json.str "SYSTEM_INFO",
                      Json.str "FILE_QUERY", Json.str "HELP"])]) none

/-- C7 witness: the HELP reply of a one-line session satisfies every
conjunct of the shape invariant. -/
theorem response_shape_invariant_witness :
    (helpResp.status = "OK" ∨ helpResp.status = "ERROR") ∧
    (helpResp.error = none ↔ helpResp.status = "OK") ∧
    (helpResp.status = "OK" → helpResp.data ≠ []) ∧
    (helpResp.status = "ERROR" → helpResp.data = [] ∧
      ∃ c m, helpResp.error = some [("code", Json.str c), ("message", Json.str m)]) ∧
    lookupKey (Response.toJson helpResp).fields "data" = some (Json.obj helpResp.data) :=
  response_shape_invariant (fun _ => some helpReq) env0 none ["x"] helpResp
    (List.Mem.head _)

end NetServer
